import Mathlib

/-!
Shallow embedding of the realtime hub, role gate and moderation endpoints of
`src/main.py`, together with the document-store helpers of `src/database.py`
that those endpoints call. Python dicts become association lists, Python sets
become duplicate-free lists, a WebSocket connection is identified by a natural
number, and `ws.send_text` raising is modelled by a boolean failure oracle
`fails : ConnId → Bool` passed to every operation that performs sends (the
`try/except` around each send means a failure never escapes the loop, which is
why the Lean functions are total and return the collected outcome instead of
an exception).
-/

/-- JSON values: the wire format of every frame (`json.dumps` /
`json.loads` in `src/main.py`). Objects are association lists. -/
inductive Json where
  | null
  | jbool (b : Bool)
  | jnum (n : Int)
  | jstr (s : String)
  | jarr (xs : List Json)
  | jobj (fields : List (String × Json))

/-- Python `fields.get(k)`: first binding of the key, `none` when absent. -/
def jsonGet (fields : List (String × Json)) (k : String) : Option Json :=
  (fields.find? (fun p => p.1 == k)).map Prod.snd

/-- Python truthiness of a JSON value, as used by `data.get("author") or "Anon"`. -/
def jsonTruthy : Json → Bool
  | .null => false
  | .jbool b => b
  | .jnum n => n != 0
  | .jstr s => s != ""
  | .jarr xs => !xs.isEmpty
  | .jobj fs => !fs.isEmpty

/-- Python `v == s` where `v` is a `dict.get` result (possibly `None`) and `s`
a string literal: true exactly when `v` is that string. -/
def optJsonIsStr (v : Option Json) (s : String) : Bool :=
  match v with
  | some (.jstr t) => t == s
  | _ => false

/-- Python `d[k] = v` on a JSON object (assignment replaces an existing
binding, otherwise appends one). -/
def dictSet (fields : List (String × Json)) (k : String) (v : Json) : List (String × Json) :=
  if fields.any (fun p => p.1 == k) then
    fields.map (fun p => if p.1 == k then (k, v) else p)
  else fields ++ [(k, v)]

/-- A WebSocket connection handle, by identity. -/
abbrev ConnId := Nat

/-- One subscriber registry of `RealtimeHub`: `Dict[str, Set[WebSocket]]`,
embedded as an association list whose values play the role of sets. -/
abbrev Registry := List (String × List ConnId)

/-- Python `d.get(k)`: the stored subscriber set, `none` when the key is absent. -/
def regFind (r : Registry) (k : String) : Option (List ConnId) :=
  (r.find? (fun p => p.1 == k)).map Prod.snd

/-- Python `d.get(k, set())` (`RealtimeHub.count_chat` / `count_room` / the
broadcast snapshot all read the registry this way). -/
def regGet (r : Registry) (k : String) : List ConnId :=
  (regFind r k).getD []

/-- Python `d.setdefault(k, set()).add(ws)`: the registration step of
`connect_chat` / `connect_room` (main.py lines 456 and 487). Set `add` is
idempotent. -/
def regSetdefaultAdd (r : Registry) (k : String) (ws : ConnId) : Registry :=
  match regFind r k with
  | none => r ++ [(k, [ws])]
  | some _ =>
      r.map (fun p =>
        if p.1 == k then (k, if p.2.contains ws then p.2 else p.2 ++ [ws]) else p)

/-- Python `d.get(k, set()).discard(ws)`: the per-connection eviction step of a
broadcast (main.py lines 479 and 510). It removes `ws` from the stored set when
the key exists, and — unlike `regUnsub` below — never removes the key entry,
even when the set becomes empty. -/
def regDiscard (r : Registry) (k : String) (ws : ConnId) : Registry :=
  r.map (fun p => if p.1 == k then (k, p.2.filter (fun c => c != ws)) else p)

/-- The locked removal step of `disconnect_chat` / `disconnect_room`
(main.py lines 460-465 and 491-496):
`conns = d.get(k)`; `if conns and ws in conns:` remove `ws`, and `pop` the key
if the set became empty. Removal of a non-member is a no-op. -/
def regUnsub (r : Registry) (k : String) (ws : ConnId) : Registry :=
  match regFind r k with
  | none => r
  | some conns =>
    if conns.isEmpty then r
    else if conns.contains ws then
      if (conns.filter (fun c => c != ws)).isEmpty then
        r.filter (fun p => p.1 != k)
      else
        r.map (fun p => if p.1 == k then (k, p.2.filter (fun c => c != ws)) else p)
    else r

/-- One delivery pass: the `for ws in conns:` loop of `broadcast_chat` /
`broadcast_room` (main.py lines 471-475). `fails ws = true` models
`ws.send_text` raising; the exception is caught by the per-connection
`try/except`, the connection is appended to `dead`, and the loop continues with
the remaining subscribers. Returns (deliveries performed, dead list), both in
traversal order. -/
def broadcastPass (msg : Json) (fails : ConnId → Bool) :
    List ConnId → List (ConnId × Json) × List ConnId
  | [] => ([], [])
  | ws :: rest =>
    let r := broadcastPass msg fails rest
    if fails ws then (r.1, ws :: r.2) else ((ws, msg) :: r.1, r.2)

/-- The follow-up locked eviction step of a broadcast (main.py lines 476-479):
for each dead connection, `d.get(k, set()).discard(ws)`. -/
def evictDead (r : Registry) (k : String) (dead : List ConnId) : Registry :=
  dead.foldl (fun acc ws => regDiscard acc k ws) r

/-- Broadcast over one registry (`broadcast_chat` and `broadcast_room` are
line-for-line copies over their registries, main.py lines 468-479 and 499-510):
snapshot the channel's subscriber set, run the delivery pass, then evict the
dead connections. Returns the updated registry and the deliveries performed. -/
def regBroadcast (r : Registry) (k : String) (msg : Json) (fails : ConnId → Bool) :
    Registry × List (ConnId × Json) :=
  let conns := regGet r k
  let p := broadcastPass msg fails conns
  (evictDead r k p.2, p.1)

/-- The in-memory state of `RealtimeHub` (main.py lines 446-451). -/
structure Hub where
  chat_channels : Registry
  room_channels : Registry
  global_channels : List ConnId
  deriving DecidableEq, Repr

/-- `RealtimeHub.broadcast_chat` (main.py lines 468-479). -/
def broadcast_chat (h : Hub) (category : String) (msg : Json) (fails : ConnId → Bool) :
    Hub × List (ConnId × Json) :=
  let p := regBroadcast h.chat_channels category msg fails
  ({ h with chat_channels := p.1 }, p.2)

/-- `RealtimeHub.broadcast_room` (main.py lines 499-510). -/
def broadcast_room (h : Hub) (room_id : String) (msg : Json) (fails : ConnId → Bool) :
    Hub × List (ConnId × Json) :=
  let p := regBroadcast h.room_channels room_id msg fails
  ({ h with room_channels := p.1 }, p.2)

/-- `RealtimeHub.count_chat` (main.py lines 481-482). -/
def count_chat (h : Hub) (category : String) : Nat :=
  (regGet h.chat_channels category).length

/-- `RealtimeHub.count_room` (main.py lines 512-513). -/
def count_room (h : Hub) (room_id : String) : Nat :=
  (regGet h.room_channels room_id).length

/-- The presence frame `{"type": "presence", "event": e, "count": n}`. -/
def presenceMsg (event : String) (count : Nat) : Json :=
  .jobj [("type", .jstr "presence"), ("event", .jstr event), ("count", .jnum count)]

/-- `RealtimeHub.connect_chat` (main.py lines 453-457): accept the handshake,
register the connection under the lock, then broadcast a join presence frame
whose count is read after registration. -/
def connect_chat (h : Hub) (category : String) (ws : ConnId) (fails : ConnId → Bool) :
    Hub × List (ConnId × Json) :=
  let h1 := { h with chat_channels := regSetdefaultAdd h.chat_channels category ws }
  broadcast_chat h1 category (presenceMsg "join" (count_chat h1 category)) fails

/-- `RealtimeHub.disconnect_chat` (main.py lines 459-466): remove the
connection under the lock (pruning the key if the set empties), then broadcast
a leave presence frame whose count is read after removal. -/
def disconnect_chat (h : Hub) (category : String) (ws : ConnId) (fails : ConnId → Bool) :
    Hub × List (ConnId × Json) :=
  let h1 := { h with chat_channels := regUnsub h.chat_channels category ws }
  broadcast_chat h1 category (presenceMsg "leave" (count_chat h1 category)) fails

/-- `RealtimeHub.connect_room` (main.py lines 484-488). -/
def connect_room (h : Hub) (room_id : String) (ws : ConnId) (fails : ConnId → Bool) :
    Hub × List (ConnId × Json) :=
  let h1 := { h with room_channels := regSetdefaultAdd h.room_channels room_id ws }
  broadcast_room h1 room_id (presenceMsg "join" (count_room h1 room_id)) fails

/-- `RealtimeHub.disconnect_room` (main.py lines 490-497). -/
def disconnect_room (h : Hub) (room_id : String) (ws : ConnId) (fails : ConnId → Bool) :
    Hub × List (ConnId × Json) :=
  let h1 := { h with room_channels := regUnsub h.room_channels room_id ws }
  broadcast_room h1 room_id (presenceMsg "leave" (count_room h1 room_id)) fails

/-- The `{"type": "pong"}` frame. -/
def pongMsg : Json := .jobj [("type", .jstr "pong")]

/-- The `{"type": "typing", "author": a}` frame. -/
def typingMsg (author : Json) : Json :=
  .jobj [("type", .jstr "typing"), ("author", author)]

/-- Handling of one successfully parsed inbound frame in `ws_chat`'s receive
loop (main.py lines 542-548). Returns the updated hub and every send performed,
as (connection, frame) pairs: a `typing` frame is rebroadcast to the channel
with the author defaulted through Python truthiness, a `ping` frame gets a
unicast `pong` to the sender only, and a non-dict or unrecognized frame does
nothing. -/
def handleChatFrame (h : Hub) (cat : String) (sender : ConnId) (data : Json)
    (fails : ConnId → Bool) : Hub × List (ConnId × Json) :=
  match data with
  | .jobj fields =>
    let t := jsonGet fields "type"
    if optJsonIsStr t "typing" then
      let a := (jsonGet fields "author").getD .null
      let author := if jsonTruthy a then a else .jstr "Anon"
      broadcast_chat h cat (typingMsg author) fails
    else if optJsonIsStr t "ping" then
      (h, [(sender, pongMsg)])
    else (h, [])
  | _ => (h, [])

/-- Handling of one parsed inbound frame in `ws_room`'s receive loop
(main.py lines 562-568); identical to the chat loop over the room registry. -/
def handleRoomFrame (h : Hub) (room_id : String) (sender : ConnId) (data : Json)
    (fails : ConnId → Bool) : Hub × List (ConnId × Json) :=
  match data with
  | .jobj fields =>
    let t := jsonGet fields "type"
    if optJsonIsStr t "typing" then
      let a := (jsonGet fields "author").getD .null
      let author := if jsonTruthy a then a else .jstr "Anon"
      broadcast_room h room_id (typingMsg author) fails
    else if optJsonIsStr t "ping" then
      (h, [(sender, pongMsg)])
    else (h, [])
  | _ => (h, [])

/-! ### Role gate and moderation endpoints -/

/-- Python `x or default` on an optional header string: `None` and the empty
string are falsy. -/
def pyOr (x : Option String) (d : String) : String :=
  match x with
  | none => d
  | some s => if s == "" then d else s

/-- Python `str.lower()` (ASCII range, which covers the role keywords),
computed on the character list so it reduces definitionally. -/
def pyLower (s : String) : String := ⟨s.data.map Char.toLower⟩

/-- Python `str.strip()`: drop leading and trailing whitespace, computed on
the character list so it reduces definitionally. -/
def pyStrip (s : String) : String :=
  ⟨((s.data.dropWhile Char.isWhitespace).reverse.dropWhile Char.isWhitespace).reverse⟩

/-- `get_role` (main.py lines 31-40): normalize the claimed role with
`(x_role or "viewer").lower().strip()`; grant `moderator`/`admin` only when
`ADMIN_TOKEN` is non-empty (`not ADMIN_TOKEN` is Python falsiness of the
string) and the caller's `x_admin_token` equals it (a missing header is `None`
and never equal); otherwise downgrade to `"viewer"`. `viewer`/`member` pass
through; anything else resolves to `"viewer"`. -/
def get_role (adminToken : String) (x_role x_admin_token : Option String) : String :=
  let role := pyStrip (pyLower (pyOr x_role "viewer"))
  if role == "moderator" || role == "admin" then
    if adminToken == "" || x_admin_token != some adminToken then "viewer" else role
  else if role == "viewer" || role == "member" then role
  else "viewer"

/-- An HTTP outcome: success body or an `HTTPException` with status and detail. -/
inductive Resp where
  | ok (msg : String)
  | err (status : Nat) (detail : String)
  deriving DecidableEq, Repr

/-- `require_moderator` (main.py lines 42-44), run by FastAPI before the
endpoint body: `some` of the 403 response when the resolved role is not
moderator/admin, `none` when the request may proceed. -/
def require_moderator (role : String) : Option Resp :=
  if role == "moderator" || role == "admin" then none
  else some (.err 403 "Moderator role required")

/-- Validity of a string as a BSON ObjectId: 24 hexadecimal characters.
This embeds the behavior of the external `bson.ObjectId` constructor called by
`_to_object_id` (database.py lines 59-63), which raises for any other string;
`_to_object_id` converts that into a `ValueError("Invalid document id")`. -/
def objectIdValid (s : String) : Bool :=
  s.length == 24 && s.toList.all (fun c =>
    c.isDigit || ('a' ≤ c && c ≤ 'f') || ('A' ≤ c && c ≤ 'F'))

/-- `_to_object_id` (database.py lines 59-63): the parsed id, or the
`ValueError` it raises for a malformed one. -/
def to_object_id (s : String) : Except String String :=
  if objectIdValid s then .ok s else .error "Invalid document id"

/-- A stored chat/room message document; only the field moderation touches. -/
structure StoredMsg where
  flagged : Bool
  deriving DecidableEq, Repr

/-- A message collection: document id → document. -/
abbrev MsgStore := List (String × StoredMsg)

/-- `update_document_set(coll, id, {"flagged": True})` (database.py lines
84-92) on a valid id: sets the field on the matching document; `modified_count
> 0` holds exactly when a document with that id exists (the refreshed
`updated_at` timestamp always counts as a modification). -/
def storeSetFlagged (store : MsgStore) (id : String) : MsgStore × Bool :=
  (store.map (fun p => if p.1 == id then (p.1, { flagged := true }) else p),
   store.any (fun p => p.1 == id))

/-- `delete_document` (database.py lines 102-107) on a valid id:
`deleted_count > 0` holds exactly when a document with that id existed. -/
def storeDelete (store : MsgStore) (id : String) : MsgStore × Bool :=
  (store.filter (fun p => p.1 != id), store.any (fun p => p.1 == id))

/-- `POST /chat/{message_id}/flag` (main.py lines 227-237) including its
`require_moderator` dependency. A malformed id makes `update_document_set`
raise `ValueError`, which the generic `except Exception` turns into a 500;
`modified_count == 0` yields the 404. Returns the resulting store and response. -/
def flag_chat_message (role : String) (store : MsgStore) (message_id : String) :
    MsgStore × Resp :=
  match require_moderator role with
  | some r => (store, r)
  | none =>
    match to_object_id message_id with
    | .error e => (store, .err 500 e)
    | .ok oid =>
      let p := storeSetFlagged store oid
      if p.2 then (p.1, .ok "Flagged") else (store, .err 404 "Message not found")

/-- `DELETE /chat/{message_id}` (main.py lines 239-249). -/
def delete_chat_message (role : String) (store : MsgStore) (message_id : String) :
    MsgStore × Resp :=
  match require_moderator role with
  | some r => (store, r)
  | none =>
    match to_object_id message_id with
    | .error e => (store, .err 500 e)
    | .ok oid =>
      let p := storeDelete store oid
      if p.2 then (p.1, .ok "Deleted") else (store, .err 404 "Message not found")

/-- `POST /rooms/{room_id}/messages/{message_id}/flag` (main.py lines 402-412):
the room id does not take part in the lookup, only the message id does. -/
def flag_room_message (role : String) (store : MsgStore) (room_id message_id : String) :
    MsgStore × Resp :=
  match require_moderator role with
  | some r => (store, r)
  | none =>
    match to_object_id message_id with
    | .error e => (store, .err 500 e)
    | .ok oid =>
      let p := storeSetFlagged store oid
      if p.2 then (p.1, .ok "Flagged") else (store, .err 404 "Message not found")

/-- `DELETE /rooms/{room_id}/messages/{message_id}` (main.py lines 414-424). -/
def delete_room_message (role : String) (store : MsgStore) (room_id message_id : String) :
    MsgStore × Resp :=
  match require_moderator role with
  | some r => (store, r)
  | none =>
    match to_object_id message_id with
    | .error e => (store, .err 500 e)
    | .ok oid =>
      let p := storeDelete store oid
      if p.2 then (p.1, .ok "Deleted") else (store, .err 404 "Message not found")

/-! ### Room existence checks for posting and pinning -/

/-- The `room` collection, by the ids of the existing room documents. -/
abbrev RoomStore := List String

/-- `POST /rooms/{room_id}/messages` (main.py lines 355-373). The flow is:
`get_document_by_id("room", room_id)` — whose `_to_object_id` raises for a
malformed id, caught by the endpoint's generic handler as a 500 —, a 404 when
no room document exists, otherwise persist the message (`payload` is the
dumped model, `newId` the generated document id) and broadcast it on the room
channel. The second component lists the broadcast calls made, as
(channel key, frame) pairs. -/
def post_room_message (rooms : RoomStore) (room_id : String)
    (payload : List (String × Json)) (newId : String) :
    Resp × List (String × Json) :=
  match to_object_id room_id with
  | .error e => (.err 500 e, [])
  | .ok oid =>
    if !rooms.contains oid then (.err 404 "Room not found", [])
    else
      let data := dictSet (dictSet payload "room_id" (.jstr room_id)) "_id" (.jstr newId)
      (.ok "Message posted",
       [(room_id, .jobj [("type", .jstr "message"), ("item", .jobj data)])])

/-- `POST /rooms/{room_id}/pin` (main.py lines 387-399): `update_document_push`
raises for a malformed id (500), reports no modification for a missing room
(404, no broadcast), and otherwise the pin frame is broadcast to the room
channel. -/
def pin_media (rooms : RoomStore) (room_id url : String) :
    Resp × List (String × Json) :=
  match to_object_id room_id with
  | .error e => (.err 500 e, [])
  | .ok oid =>
    if !rooms.contains oid then (.err 404 "Room not found or not updated", [])
    else (.ok "Media pinned", [(room_id, .jobj [("type", .jstr "pin"), ("url", .jstr url)])])

/-! ### Lock discipline of a broadcast

The primitive actions `broadcast_chat` / `broadcast_room` perform, in program
order, so the lock discipline of the two-phase broadcast can be stated. -/

/-- One primitive action of a broadcast: taking the subscriber snapshot
(`conns = list(d.get(k, set()))`, a single step with no suspension point),
an awaited network send, acquiring/releasing `self.lock`, and one
`discard` eviction. -/
inductive HubStep where
  | acquire
  | release
  | snapshot (k : String)
  | send (ws : ConnId)
  | discard (k : String) (ws : ConnId)
  deriving DecidableEq, Repr

/-- The action sequence of `broadcast_chat` (main.py lines 468-479) and of the
line-for-line identical `broadcast_room` (lines 499-510), given the snapshot
`conns` and the dead list `dead` the delivery pass produces: the snapshot,
then one send per snapshotted connection, then — only when `dead` is non-empty
(`if dead:`) — the lock is acquired, each dead connection is discarded, and
the lock is released. -/
def broadcastSteps (k : String) (conns dead : List ConnId) : List HubStep :=
  [HubStep.snapshot k] ++ conns.map HubStep.send ++
    (if dead.isEmpty then []
     else [HubStep.acquire] ++ dead.map (fun ws => HubStep.discard k ws) ++ [HubStep.release])

/-- Checks a run, threading the lock depth: true when every snapshot action
executes while the lock is held (depth positive). -/
def snapshotsUnderLock : List HubStep → Nat → Bool
  | [], _ => true
  | .acquire :: r, d => snapshotsUnderLock r (d + 1)
  | .release :: r, d => snapshotsUnderLock r (d - 1)
  | .snapshot _ :: r, d => d != 0 && snapshotsUnderLock r d
  | _ :: r, d => snapshotsUnderLock r d

/-- Checks a run, threading the lock depth: true when the run is two-phase —
the snapshot and every network send execute with the lock free, and every
discard eviction executes with the lock held. -/
def twoPhaseRun : List HubStep → Nat → Bool
  | [], _ => true
  | .acquire :: r, d => twoPhaseRun r (d + 1)
  | .release :: r, d => twoPhaseRun r (d - 1)
  | .snapshot _ :: r, d => d == 0 && twoPhaseRun r d
  | .send _ :: r, d => d == 0 && twoPhaseRun r d
  | .discard _ _ :: r, d => d != 0 && twoPhaseRun r d

/-! ### Registry lemmas -/

theorem regGet_eq_of_find (r : Registry) (k : String) (conns : List ConnId)
    (h : regFind r k = some conns) : regGet r k = conns := by
  simp [regGet, h]

theorem regGet_eq_nil_of_find_none (r : Registry) (k : String)
    (h : regFind r k = none) : regGet r k = [] := by
  simp [regGet, h]

/-- Reading back the updated key after an entry-updating map (the shape shared
by `regDiscard`, `regSetdefaultAdd`'s existing-key branch and `regUnsub`'s
in-place branch). -/
theorem regGet_map_entry (r : Registry) (k : String) (f : List ConnId → List ConnId) :
    regGet (r.map (fun p => if p.1 == k then (k, f p.2) else p)) k
      = (regFind r k).elim [] f := by
  induction r with
  | nil => rfl
  | cons hd tl ih =>
    simp only [List.map_cons]
    by_cases hk : (hd.1 == k) = true
    · rw [if_pos hk]
      have h1 : List.find? (fun p => p.1 == k)
          ((k, f hd.2) :: tl.map (fun p => if p.1 == k then (k, f p.2) else p))
          = some (k, f hd.2) := List.find?_cons_of_pos _ (by simp)
      have h2 : List.find? (fun p => p.1 == k) (hd :: tl) = some hd :=
        List.find?_cons_of_pos _ hk
      simp [regGet, regFind, h1, h2]
    · rw [if_neg hk]
      have h1 : List.find? (fun p => p.1 == k)
          (hd :: tl.map (fun p => if p.1 == k then (k, f p.2) else p))
          = List.find? (fun p => p.1 == k)
              (tl.map (fun p => if p.1 == k then (k, f p.2) else p)) :=
        List.find?_cons_of_neg _ (by simpa using hk)
      have h2 : List.find? (fun p => p.1 == k) (hd :: tl)
          = List.find? (fun p => p.1 == k) tl :=
        List.find?_cons_of_neg _ (by simpa using hk)
      simp only [regGet, regFind, h1, h2] at ih ⊢
      exact ih

theorem regGet_regDiscard (r : Registry) (k : String) (ws : ConnId) :
    regGet (regDiscard r k ws) k = (regGet r k).filter (fun c => c != ws) := by
  have h := regGet_map_entry r k (fun l => l.filter (fun c => c != ws))
  have h2 : regGet (regDiscard r k ws) k
      = (regFind r k).elim [] (fun l => l.filter (fun c => c != ws)) := h
  rw [h2]
  cases hf : regFind r k <;> simp [regGet, hf]

theorem keys_map_entry (r : Registry) (k : String) (f : List ConnId → List ConnId) :
    (r.map (fun p => if p.1 == k then (k, f p.2) else p)).map Prod.fst
      = r.map Prod.fst := by
  induction r with
  | nil => rfl
  | cons hd tl ih =>
    simp only [List.map_cons, ih]
    by_cases hk : hd.1 == k
    · simp [hk, (eq_of_beq hk).symm]
    · simp [hk]

theorem keys_regDiscard (r : Registry) (k : String) (ws : ConnId) :
    (regDiscard r k ws).map Prod.fst = r.map Prod.fst :=
  keys_map_entry r k (fun l => l.filter (fun c => c != ws))

theorem keys_evictDead (r : Registry) (k : String) (dead : List ConnId) :
    (evictDead r k dead).map Prod.fst = r.map Prod.fst := by
  induction dead generalizing r with
  | nil => rfl
  | cons w ds ih =>
    show (evictDead (regDiscard r k w) k ds).map Prod.fst = _
    rw [ih, keys_regDiscard]

theorem regGet_evictDead (r : Registry) (k : String) (dead : List ConnId) :
    regGet (evictDead r k dead) k = (regGet r k).filter (fun c => !dead.contains c) := by
  induction dead generalizing r with
  | nil =>
    show regGet r k = _
    have h : (fun c : ConnId => !List.contains ([] : List ConnId) c) = fun _ => true := by
      funext c; rfl
    rw [h, List.filter_true]
  | cons w ds ih =>
    show regGet (evictDead (regDiscard r k w) k ds) k = _
    rw [ih, regGet_regDiscard, List.filter_filter]
    apply List.filter_congr
    intro a _
    by_cases haw : a = w <;> simp [haw, List.contains_cons, Bool.not_or]

theorem broadcastPass_sent (msg : Json) (fails : ConnId → Bool) (conns : List ConnId) :
    (broadcastPass msg fails conns).1
      = (conns.filter (fun c => !fails c)).map (fun c => (c, msg)) := by
  induction conns with
  | nil => rfl
  | cons w rest ih =>
    by_cases hw : fails w = true <;>
      simp [broadcastPass, hw, ih]

theorem broadcastPass_dead (msg : Json) (fails : ConnId → Bool) (conns : List ConnId) :
    (broadcastPass msg fails conns).2 = conns.filter fails := by
  induction conns with
  | nil => rfl
  | cons w rest ih =>
    by_cases hw : fails w = true <;>
      simp [broadcastPass, hw, ih]

theorem regBroadcast_eq (r : Registry) (k : String) (msg : Json) (fails : ConnId → Bool) :
    regBroadcast r k msg fails
      = (evictDead r k ((regGet r k).filter fails),
         ((regGet r k).filter (fun c => !fails c)).map (fun c => (c, msg))) := by
  simp [regBroadcast, broadcastPass_sent, broadcastPass_dead]

theorem regBroadcast_noFail (r : Registry) (k : String) (msg : Json) :
    regBroadcast r k msg (fun _ => false)
      = (r, (regGet r k).map (fun c => (c, msg))) := by
  rw [regBroadcast_eq]
  have h1 : (regGet r k).filter (fun _ => false) = [] := by simp
  have h2 : (regGet r k).filter (fun c => !(fun _ : ConnId => false) c) = regGet r k := by
    have : (fun c : ConnId => !(fun _ : ConnId => false) c) = fun _ => true := by
      funext c; rfl
    rw [this, List.filter_true]
  rw [h1, h2]
  rfl

/-- Every delivery a broadcast performs goes to a snapshotted subscriber whose
send succeeded, and carries the broadcast message. -/
theorem regBroadcast_sent_shape (r : Registry) (k : String) (msg : Json)
    (fails : ConnId → Bool) (p : ConnId × Json)
    (hp : p ∈ (regBroadcast r k msg fails).2) :
    p.1 ∈ regGet r k ∧ fails p.1 = false ∧ p.2 = msg := by
  rw [regBroadcast_eq] at hp
  simp only at hp
  obtain ⟨c, hc, rfl⟩ := List.mem_map.mp hp
  have := List.mem_filter.mp hc
  exact ⟨this.1, by simpa using this.2, rfl⟩

/-- A snapshotted subscriber whose send succeeds is delivered the message. -/
theorem regBroadcast_delivers (r : Registry) (k : String) (msg : Json)
    (fails : ConnId → Bool) (ws : ConnId)
    (h1 : ws ∈ regGet r k) (h2 : fails ws = false) :
    (ws, msg) ∈ (regBroadcast r k msg fails).2 := by
  rw [regBroadcast_eq]
  simp only
  exact List.mem_map.mpr ⟨ws, List.mem_filter.mpr ⟨h1, by simp [h2]⟩, rfl⟩

/-- After the delivery pass, a connection whose send failed is no longer in
the channel's subscriber set. -/
theorem regBroadcast_evicts (r : Registry) (k : String) (msg : Json)
    (fails : ConnId → Bool) (ws : ConnId) (h : fails ws = true) :
    ws ∉ regGet (regBroadcast r k msg fails).1 k := by
  rw [regBroadcast_eq]
  simp only
  intro hmem
  rw [regGet_evictDead] at hmem
  have hm := List.mem_filter.mp hmem
  have hdead : ws ∈ (regGet r k).filter fails :=
    List.mem_filter.mpr ⟨hm.1, h⟩
  have hfalse := hm.2
  rw [Bool.not_eq_true'] at hfalse
  have hc2 : (List.filter fails (regGet r k)).contains ws = true :=
    List.elem_iff.mpr hdead
  rw [hc2] at hfalse
  exact Bool.noConfusion hfalse


theorem regUnsub_eq_none (r : Registry) (k : String) (ws : ConnId)
    (hf : regFind r k = none) : regUnsub r k ws = r := by
  unfold regUnsub
  rw [hf]

theorem regUnsub_eq_some (r : Registry) (k : String) (ws : ConnId) (conns : List ConnId)
    (hf : regFind r k = some conns) :
    regUnsub r k ws =
      (if conns.isEmpty then r
       else if conns.contains ws then
         if (conns.filter (fun c => c != ws)).isEmpty then
           r.filter (fun p => p.1 != k)
         else
           r.map (fun p => if p.1 == k then (k, p.2.filter (fun c => c != ws)) else p)
       else r) := by
  unfold regUnsub
  rw [hf]

theorem regSetdefaultAdd_eq_none (r : Registry) (k : String) (ws : ConnId)
    (hf : regFind r k = none) : regSetdefaultAdd r k ws = r ++ [(k, [ws])] := by
  unfold regSetdefaultAdd
  rw [hf]

theorem regSetdefaultAdd_eq_some (r : Registry) (k : String) (ws : ConnId)
    (conns : List ConnId) (hf : regFind r k = some conns) :
    regSetdefaultAdd r k ws
      = r.map (fun p =>
          if p.1 == k then (k, if p.2.contains ws then p.2 else p.2 ++ [ws]) else p) := by
  unfold regSetdefaultAdd
  rw [hf]

theorem regFind_filter_ne (r : Registry) (k : String) :
    regFind (r.filter (fun p => p.1 != k)) k = none := by
  have hn : (r.filter (fun p => p.1 != k)).find? (fun p => p.1 == k) = none :=
    List.find?_eq_none.mpr (by
      intro x hx
      have h3 := (List.mem_filter.mp hx).2
      simp only [bne_iff_ne, ne_eq] at h3
      simp [h3])
  simp [regFind, hn]

theorem regUnsub_nonmember (r : Registry) (k : String) (ws : ConnId)
    (h : ws ∉ regGet r k) : regUnsub r k ws = r := by
  cases hf : regFind r k with
  | none => exact regUnsub_eq_none r k ws hf
  | some conns =>
    rw [regUnsub_eq_some r k ws conns hf]
    have hg : regGet r k = conns := regGet_eq_of_find r k conns hf
    have hc : conns.contains ws = false := by
      cases hcc : conns.contains ws
      · rfl
      · exact absurd (List.elem_iff.mp hcc) (hg ▸ h)
    by_cases he : conns.isEmpty = true
    · rw [if_pos he]
    · rw [if_neg he, if_neg (by rw [hc]; exact Bool.false_ne_true)]

theorem regGet_regUnsub (r : Registry) (k : String) (ws : ConnId) :
    regGet (regUnsub r k ws) k = (regGet r k).filter (fun c => c != ws) := by
  cases hf : regFind r k with
  | none =>
    rw [regUnsub_eq_none r k ws hf, regGet_eq_nil_of_find_none r k hf]
    rfl
  | some conns =>
    rw [regUnsub_eq_some r k ws conns hf, regGet_eq_of_find r k conns hf]
    by_cases he : conns.isEmpty = true
    · rw [if_pos he, regGet_eq_of_find r k conns hf, List.isEmpty_iff.mp he]
      rfl
    · rw [if_neg he]
      by_cases hc : conns.contains ws = true
      · rw [if_pos hc]
        by_cases h2 : (conns.filter (fun c => c != ws)).isEmpty = true
        · rw [if_pos h2, regGet_eq_nil_of_find_none _ k (regFind_filter_ne r k),
            List.isEmpty_iff.mp h2]
        · rw [if_neg h2]
          have h4 := regGet_map_entry r k (fun l => l.filter (fun c => c != ws))
          rw [hf] at h4
          exact h4
      · rw [if_neg hc, regGet_eq_of_find r k conns hf]
        have hall : ∀ a ∈ conns, (a != ws) = true := by
          intro a ha
          have hne : ¬ a = ws := by
            intro haw
            rw [haw] at ha
            exact hc (List.elem_iff.mpr ha)
          simpa using hne
        rw [List.filter_congr (fun a ha => by rw [hall a ha]), List.filter_true]

theorem regUnsub_not_mem (r : Registry) (k : String) (ws : ConnId) :
    ws ∉ regGet (regUnsub r k ws) k := by
  rw [regGet_regUnsub]
  intro hmem
  have := (List.mem_filter.mp hmem).2
  simp at this

/-- Unsubscribing the sole subscriber removes the channel key entry. -/
theorem regUnsub_sole_prunes (r : Registry) (k : String) (ws : ConnId)
    (h : regFind r k = some [ws]) : regFind (regUnsub r k ws) k = none := by
  rw [regUnsub_eq_some r k ws [ws] h]
  have he : (([ws] : List ConnId).isEmpty = true) = False := by simp
  have hc : ([ws] : List ConnId).contains ws = true := by simp
  have h2 : (([ws] : List ConnId).filter (fun c => c != ws)).isEmpty = true := by simp
  rw [if_neg (by simp), if_pos hc, if_pos h2]
  exact regFind_filter_ne r k

theorem regGet_setdefaultAdd (r : Registry) (k : String) (ws : ConnId) :
    regGet (regSetdefaultAdd r k ws) k
      = (if (regGet r k).contains ws then regGet r k else regGet r k ++ [ws]) := by
  cases hf : regFind r k with
  | none =>
    rw [regSetdefaultAdd_eq_none r k ws hf, regGet_eq_nil_of_find_none r k hf]
    have h1 : r.find? (fun p => p.1 == k) = none := by
      cases hff : r.find? (fun p => p.1 == k) with
      | none => rfl
      | some x =>
        exfalso
        have hx : regFind r k = some x.2 := by simp [regFind, hff]
        rw [hf] at hx
        exact Option.noConfusion hx
    have hfind : (r ++ [(k, [ws])]).find? (fun p => p.1 == k) = some (k, [ws]) := by
      rw [List.find?_append, h1]
      simp
    simp [regGet, regFind, hfind]
  | some conns =>
    rw [regSetdefaultAdd_eq_some r k ws conns hf, regGet_eq_of_find r k conns hf]
    have h4 := regGet_map_entry r k
      (fun l => if l.contains ws then l else l ++ [ws])
    rw [hf] at h4
    exact h4

theorem regBroadcast_fst (r : Registry) (k : String) (msg : Json) (fails : ConnId → Bool) :
    (regBroadcast r k msg fails).1 = evictDead r k ((regGet r k).filter fails) := by
  rw [regBroadcast_eq]

theorem regBroadcast_noFail_fst (r : Registry) (k : String) (msg : Json) :
    (regBroadcast r k msg (fun _ => false)).1 = r := by
  rw [regBroadcast_noFail]

theorem regBroadcast_noFail_snd (r : Registry) (k : String) (msg : Json) :
    (regBroadcast r k msg (fun _ => false)).2 = (regGet r k).map (fun c => (c, msg)) := by
  rw [regBroadcast_noFail]

theorem mem_regGet_setdefaultAdd (r : Registry) (k : String) (ws : ConnId) :
    ws ∈ regGet (regSetdefaultAdd r k ws) k := by
  rw [regGet_setdefaultAdd]
  by_cases hc : (regGet r k).contains ws = true
  · rw [if_pos hc]
    exact List.elem_iff.mp hc
  · rw [if_neg hc]
    exact List.mem_append_right _ (List.mem_singleton.mpr rfl)

/-! ### Concrete states used by the witnesses -/

/-- The freshly constructed hub (`hub = RealtimeHub()`). -/
def hub0 : Hub := ⟨[], [], []⟩

/-- A hub with two chat subscribers in category `"c"` and two room subscribers
in room `"r"`. -/
def hubW : Hub := ⟨[("c", [1, 2])], [("r", [1, 2])], []⟩

/-- A hub whose channel `"c"` / room `"r"` each have the sole subscriber 7. -/
def hub1 : Hub := ⟨[("c", [7])], [("r", [7])], []⟩

/-! ### Claims -/

/-- C1: for every chat or room channel and message, a broadcast attempts
delivery to each snapshotted subscriber independently — a subscriber whose send
succeeds receives the message even when other sends fail (the per-connection
`try/except` keeps the loop going and nothing is raised to the caller, which is
why the embedded broadcast is a total function) — every delivery goes to a
snapshotted subscriber, and after the delivery pass every failed connection has
been removed from the channel's subscriber set, so a subsequent broadcast on
that channel delivers nothing to it. -/
theorem broadcast_failure_isolation
    (h : Hub) (cat room : String) (msg msg2 : Json) (fails fails2 : ConnId → Bool)
    (ws : ConnId) :
    (ws ∈ regGet h.chat_channels cat → fails ws = false →
       (ws, msg) ∈ (broadcast_chat h cat msg fails).2)
    ∧ (fails ws = true →
       ws ∉ regGet (broadcast_chat h cat msg fails).1.chat_channels cat)
    ∧ (∀ p ∈ (broadcast_chat h cat msg fails).2,
       p.1 ∈ regGet h.chat_channels cat ∧ fails p.1 = false ∧ p.2 = msg)
    ∧ (fails ws = true →
       ∀ p ∈ (broadcast_chat (broadcast_chat h cat msg fails).1 cat msg2 fails2).2,
         p.1 ≠ ws)
    ∧ (ws ∈ regGet h.room_channels room → fails ws = false →
       (ws, msg) ∈ (broadcast_room h room msg fails).2)
    ∧ (fails ws = true →
       ws ∉ regGet (broadcast_room h room msg fails).1.room_channels room)
    ∧ (∀ p ∈ (broadcast_room h room msg fails).2,
       p.1 ∈ regGet h.room_channels room ∧ fails p.1 = false ∧ p.2 = msg)
    ∧ (fails ws = true →
       ∀ p ∈ (broadcast_room (broadcast_room h room msg fails).1 room msg2 fails2).2,
         p.1 ≠ ws) := by
  refine ⟨?_, ?_, ?_, ?_, ?_, ?_, ?_, ?_⟩
  · exact fun hm hf => regBroadcast_delivers h.chat_channels cat msg fails ws hm hf
  · exact fun hf => regBroadcast_evicts h.chat_channels cat msg fails ws hf
  · exact fun p hp => regBroadcast_sent_shape h.chat_channels cat msg fails p hp
  · intro hf p hp heq
    have h1 := regBroadcast_sent_shape
      ((regBroadcast h.chat_channels cat msg fails).1) cat msg2 fails2 p hp
    have h2 := regBroadcast_evicts h.chat_channels cat msg fails ws hf
    rw [heq] at h1
    exact h2 h1.1
  · exact fun hm hf => regBroadcast_delivers h.room_channels room msg fails ws hm hf
  · exact fun hf => regBroadcast_evicts h.room_channels room msg fails ws hf
  · exact fun p hp => regBroadcast_sent_shape h.room_channels room msg fails p hp
  · intro hf p hp heq
    have h1 := regBroadcast_sent_shape
      ((regBroadcast h.room_channels room msg fails).1) room msg2 fails2 p hp
    have h2 := regBroadcast_evicts h.room_channels room msg fails ws hf
    rw [heq] at h1
    exact h2 h1.1

/-- Witness for C1: in a channel with subscribers 1 and 2 where sending to 1
fails, subscriber 2 still receives the message and 1 is evicted. -/
theorem broadcast_failure_isolation_witness :
    (2, pongMsg) ∈ (broadcast_chat hubW "c" pongMsg (fun c => c == 1)).2
    ∧ 1 ∉ regGet (broadcast_chat hubW "c" pongMsg (fun c => c == 1)).1.chat_channels "c"
    ∧ (1, pongMsg) ∈ (broadcast_room hubW "r" pongMsg (fun c => c == 2)).2 := by
  refine ⟨?_, ?_, ?_⟩
  · exact (broadcast_failure_isolation hubW "c" "r" pongMsg pongMsg
      (fun c => c == 1) (fun _ => false) 2).1 (by decide) (by decide)
  · exact (broadcast_failure_isolation hubW "c" "r" pongMsg pongMsg
      (fun c => c == 1) (fun _ => false) 1).2.1 (by decide)
  · exact (broadcast_failure_isolation hubW "c" "r" pongMsg pongMsg
      (fun c => c == 2) (fun _ => false) 1).2.2.2.2.1 (by decide) (by decide)

/-- C2 counterexample: from the fresh hub, connect subscriber 1 to chat
channel `"c"` (its join broadcast succeeding) and then broadcast a message
whose send to 1 fails. The eviction step removes 1 with `discard` but never
pops the key, so the reachable resulting state maps `"c"` to the empty
subscriber set — the key is present with an empty set, contradicting the
claimed invariant. -/
theorem broadcast_eviction_leaves_empty_channel :
    (broadcast_chat (connect_chat hub0 "c" 1 (fun _ => false)).1 "c" pongMsg
        (fun _ => true)).1.chat_channels = [("c", [])] := by
  decide

/-- C2 amended: the empty-set pruning happens only in the disconnect path —
removing the sole subscriber of a chat or room channel deletes the channel key
— while the dead-connection eviction step of a broadcast never removes any
channel key, so a broadcast can leave a channel key mapping to an empty
subscriber set. -/
theorem registry_pruning_only_on_disconnect
    (h : Hub) (cat room : String) (ws : ConnId) (msg : Json) (fails : ConnId → Bool) :
    (regFind h.chat_channels cat = some [ws] →
       regFind (disconnect_chat h cat ws (fun _ => false)).1.chat_channels cat = none)
    ∧ ((broadcast_chat h cat msg fails).1.chat_channels.map Prod.fst
        = h.chat_channels.map Prod.fst)
    ∧ (regFind h.room_channels room = some [ws] →
       regFind (disconnect_room h room ws (fun _ => false)).1.room_channels room = none)
    ∧ ((broadcast_room h room msg fails).1.room_channels.map Prod.fst
        = h.room_channels.map Prod.fst) := by
  refine ⟨?_, ?_, ?_, ?_⟩
  · intro hsole
    have h1 : (disconnect_chat h cat ws (fun _ => false)).1.chat_channels
        = regUnsub h.chat_channels cat ws := regBroadcast_noFail_fst _ _ _
    rw [h1]
    exact regUnsub_sole_prunes _ _ _ hsole
  · have h1 : (broadcast_chat h cat msg fails).1.chat_channels
        = evictDead h.chat_channels cat ((regGet h.chat_channels cat).filter fails) :=
      regBroadcast_fst _ _ _ _
    rw [h1]
    exact keys_evictDead _ _ _
  · intro hsole
    have h1 : (disconnect_room h room ws (fun _ => false)).1.room_channels
        = regUnsub h.room_channels room ws := regBroadcast_noFail_fst _ _ _
    rw [h1]
    exact regUnsub_sole_prunes _ _ _ hsole
  · have h1 : (broadcast_room h room msg fails).1.room_channels
        = evictDead h.room_channels room ((regGet h.room_channels room).filter fails) :=
      regBroadcast_fst _ _ _ _
    rw [h1]
    exact keys_evictDead _ _ _

/-- Witness for the amended C2: disconnecting the sole subscriber 7 leaves the
channel key absent from the respective registry. -/
theorem registry_pruning_only_on_disconnect_witness :
    regFind (disconnect_chat hub1 "c" 7 (fun _ => false)).1.chat_channels "c" = none
    ∧ regFind (disconnect_room hub1 "r" 7 (fun _ => false)).1.room_channels "r" = none :=
  ⟨(registry_pruning_only_on_disconnect hub1 "c" "r" 7 pongMsg (fun _ => false)).1
      (by decide),
   (registry_pruning_only_on_disconnect hub1 "c" "r" 7 pongMsg (fun _ => false)).2.2.1
      (by decide)⟩

/-- C3: `connect_chat` / `connect_room` register the connection first and then
broadcast `presence{event:"join", count}` where the count is the subscriber
count after registration (the joiner included, and the broadcast snapshot is
the post-registration set); `disconnect_chat` / `disconnect_room` remove the
connection first and then broadcast `presence{event:"leave", count}` with the
count taken after removal. Stated with no send failures so the broadcast
leaves the registry unchanged and the delivery list is exactly the
post-mutation member set paired with the presence frame. -/
theorem presence_counts_after_mutation (h : Hub) (cat room : String) (ws : ConnId) :
    (regGet (connect_chat h cat ws (fun _ => false)).1.chat_channels cat
        = (if (regGet h.chat_channels cat).contains ws then regGet h.chat_channels cat
           else regGet h.chat_channels cat ++ [ws]))
    ∧ ws ∈ regGet (connect_chat h cat ws (fun _ => false)).1.chat_channels cat
    ∧ ((connect_chat h cat ws (fun _ => false)).2
        = (regGet (connect_chat h cat ws (fun _ => false)).1.chat_channels cat).map
            (fun c => (c, presenceMsg "join"
              (count_chat (connect_chat h cat ws (fun _ => false)).1 cat))))
    ∧ (regGet (disconnect_chat h cat ws (fun _ => false)).1.chat_channels cat
        = (regGet h.chat_channels cat).filter (fun c => c != ws))
    ∧ ws ∉ regGet (disconnect_chat h cat ws (fun _ => false)).1.chat_channels cat
    ∧ ((disconnect_chat h cat ws (fun _ => false)).2
        = (regGet (disconnect_chat h cat ws (fun _ => false)).1.chat_channels cat).map
            (fun c => (c, presenceMsg "leave"
              (count_chat (disconnect_chat h cat ws (fun _ => false)).1 cat))))
    ∧ (regGet (connect_room h room ws (fun _ => false)).1.room_channels room
        = (if (regGet h.room_channels room).contains ws then regGet h.room_channels room
           else regGet h.room_channels room ++ [ws]))
    ∧ ws ∈ regGet (connect_room h room ws (fun _ => false)).1.room_channels room
    ∧ ((connect_room h room ws (fun _ => false)).2
        = (regGet (connect_room h room ws (fun _ => false)).1.room_channels room).map
            (fun c => (c, presenceMsg "join"
              (count_room (connect_room h room ws (fun _ => false)).1 room))))
    ∧ (regGet (disconnect_room h room ws (fun _ => false)).1.room_channels room
        = (regGet h.room_channels room).filter (fun c => c != ws))
    ∧ ws ∉ regGet (disconnect_room h room ws (fun _ => false)).1.room_channels room
    ∧ ((disconnect_room h room ws (fun _ => false)).2
        = (regGet (disconnect_room h room ws (fun _ => false)).1.room_channels room).map
            (fun c => (c, presenceMsg "leave"
              (count_room (disconnect_room h room ws (fun _ => false)).1 room)))) := by
  have hcc : (connect_chat h cat ws (fun _ => false)).1.chat_channels
      = regSetdefaultAdd h.chat_channels cat ws := regBroadcast_noFail_fst _ _ _
  have hdc : (disconnect_chat h cat ws (fun _ => false)).1.chat_channels
      = regUnsub h.chat_channels cat ws := regBroadcast_noFail_fst _ _ _
  have hcr : (connect_room h room ws (fun _ => false)).1.room_channels
      = regSetdefaultAdd h.room_channels room ws := regBroadcast_noFail_fst _ _ _
  have hdr : (disconnect_room h room ws (fun _ => false)).1.room_channels
      = regUnsub h.room_channels room ws := regBroadcast_noFail_fst _ _ _
  have hcount_cc : count_chat (connect_chat h cat ws (fun _ => false)).1 cat
      = (regGet (regSetdefaultAdd h.chat_channels cat ws) cat).length := by
    show (regGet (connect_chat h cat ws (fun _ => false)).1.chat_channels cat).length = _
    rw [hcc]
  have hcount_dc : count_chat (disconnect_chat h cat ws (fun _ => false)).1 cat
      = (regGet (regUnsub h.chat_channels cat ws) cat).length := by
    show (regGet (disconnect_chat h cat ws (fun _ => false)).1.chat_channels cat).length = _
    rw [hdc]
  have hcount_cr : count_room (connect_room h room ws (fun _ => false)).1 room
      = (regGet (regSetdefaultAdd h.room_channels room ws) room).length := by
    show (regGet (connect_room h room ws (fun _ => false)).1.room_channels room).length = _
    rw [hcr]
  have hcount_dr : count_room (disconnect_room h room ws (fun _ => false)).1 room
      = (regGet (regUnsub h.room_channels room ws) room).length := by
    show (regGet (disconnect_room h room ws (fun _ => false)).1.room_channels room).length = _
    rw [hdr]
  refine ⟨?_, ?_, ?_, ?_, ?_, ?_, ?_, ?_, ?_, ?_, ?_, ?_⟩
  · rw [hcc, regGet_setdefaultAdd]
  · rw [hcc]
    exact mem_regGet_setdefaultAdd _ _ _
  · rw [hcount_cc, hcc]
    exact regBroadcast_noFail_snd _ _ _
  · rw [hdc, regGet_regUnsub]
  · rw [hdc]
    exact regUnsub_not_mem _ _ _
  · rw [hcount_dc, hdc]
    exact regBroadcast_noFail_snd _ _ _
  · rw [hcr, regGet_setdefaultAdd]
  · rw [hcr]
    exact mem_regGet_setdefaultAdd _ _ _
  · rw [hcount_cr, hcr]
    exact regBroadcast_noFail_snd _ _ _
  · rw [hdr, regGet_regUnsub]
  · rw [hdr]
    exact regUnsub_not_mem _ _ _
  · rw [hcount_dr, hdr]
    exact regBroadcast_noFail_snd _ _ _

/-- Witness for C3: joining channel `"c"` (current member 1) as connection 2
delivers join presence with count 2 to the joiner as well; disconnecting 2
leaves it out of the member set. -/
theorem presence_counts_after_mutation_witness :
    2 ∈ regGet (connect_chat hubW "c" 2 (fun _ => false)).1.chat_channels "c"
    ∧ 2 ∉ regGet (disconnect_chat hubW "c" 2 (fun _ => false)).1.chat_channels "c" :=
  ⟨(presence_counts_after_mutation hubW "c" "r" 2).2.1,
   (presence_counts_after_mutation hubW "c" "r" 2).2.2.2.2.1⟩

theorem get_role_elevated_bad_token (adminToken : String) (x_role x_admin_token : Option String)
    (hrol : pyStrip (pyLower (pyOr x_role "viewer")) = "moderator"
          ∨ pyStrip (pyLower (pyOr x_role "viewer")) = "admin")
    (htok : adminToken = "" ∨ x_admin_token ≠ some adminToken) :
    get_role adminToken x_role x_admin_token = "viewer" := by
  simp only [get_role]
  have hb : (pyStrip (pyLower (pyOr x_role "viewer")) == "moderator"
      || pyStrip (pyLower (pyOr x_role "viewer")) == "admin") = true := by
    rcases hrol with h | h <;> rw [h] <;> rfl
  have hb2 : (adminToken == "" || x_admin_token != some adminToken) = true := by
    rcases htok with h | h
    · rw [h]
      rfl
    · have : (x_admin_token != some adminToken) = true := by
        simpa [bne_iff_ne] using h
      rw [this]
      simp
  rw [hb, if_pos rfl, hb2, if_pos rfl]

theorem get_role_elevated_good_token (adminToken : String) (x_role x_admin_token : Option String)
    (hrol : pyStrip (pyLower (pyOr x_role "viewer")) = "moderator"
          ∨ pyStrip (pyLower (pyOr x_role "viewer")) = "admin")
    (h1 : adminToken ≠ "") (h2 : x_admin_token = some adminToken) :
    get_role adminToken x_role x_admin_token = pyStrip (pyLower (pyOr x_role "viewer")) := by
  simp only [get_role]
  have hb : (pyStrip (pyLower (pyOr x_role "viewer")) == "moderator"
      || pyStrip (pyLower (pyOr x_role "viewer")) == "admin") = true := by
    rcases hrol with h | h <;> rw [h] <;> rfl
  have hb2 : (adminToken == "" || x_admin_token != some adminToken) = false := by
    have e1 : (adminToken == "") = false := beq_eq_false_iff_ne.mpr h1
    have e2 : (x_admin_token != some adminToken) = false := by
      simp [bne_iff_ne, h2]
    rw [e1, e2]
    rfl
  rw [hb, if_pos rfl, hb2]
  simp

theorem get_role_low (adminToken : String) (x_role x_admin_token : Option String)
    (hrol : pyStrip (pyLower (pyOr x_role "viewer")) = "viewer"
          ∨ pyStrip (pyLower (pyOr x_role "viewer")) = "member") :
    get_role adminToken x_role x_admin_token = pyStrip (pyLower (pyOr x_role "viewer")) := by
  simp only [get_role]
  have hb : (pyStrip (pyLower (pyOr x_role "viewer")) == "moderator"
      || pyStrip (pyLower (pyOr x_role "viewer")) == "admin") = false := by
    rcases hrol with h | h <;> rw [h] <;> rfl
  have hb2 : (pyStrip (pyLower (pyOr x_role "viewer")) == "viewer"
      || pyStrip (pyLower (pyOr x_role "viewer")) == "member") = true := by
    rcases hrol with h | h <;> rw [h] <;> rfl
  rw [hb]
  simp only [Bool.false_eq_true, if_false]
  rw [hb2, if_pos rfl]

theorem get_role_unrecognized (adminToken : String) (x_role x_admin_token : Option String)
    (h1 : pyStrip (pyLower (pyOr x_role "viewer")) ≠ "moderator")
    (h2 : pyStrip (pyLower (pyOr x_role "viewer")) ≠ "admin")
    (h3 : pyStrip (pyLower (pyOr x_role "viewer")) ≠ "viewer")
    (h4 : pyStrip (pyLower (pyOr x_role "viewer")) ≠ "member") :
    get_role adminToken x_role x_admin_token = "viewer" := by
  simp only [get_role]
  have hb : (pyStrip (pyLower (pyOr x_role "viewer")) == "moderator"
      || pyStrip (pyLower (pyOr x_role "viewer")) == "admin") = false := by
    rw [beq_eq_false_iff_ne.mpr h1, beq_eq_false_iff_ne.mpr h2]
    rfl
  have hb2 : (pyStrip (pyLower (pyOr x_role "viewer")) == "viewer"
      || pyStrip (pyLower (pyOr x_role "viewer")) == "member") = false := by
    rw [beq_eq_false_iff_ne.mpr h3, beq_eq_false_iff_ne.mpr h4]
    rfl
  rw [hb]
  simp only [Bool.false_eq_true, if_false]
  rw [hb2]
  simp only [Bool.false_eq_true, if_false]

/-- C4: the role header is normalized with `(x_role or "viewer").lower().strip()`;
a claimed `moderator`/`admin` resolves to that elevated role precisely when the
configured `ADMIN_TOKEN` is non-empty and the supplied token header equals it
exactly — otherwise the request is silently resolved to `"viewer"` (the
resolution itself returns a role, never an error); `viewer` and `member` are
granted without any token, an absent header defaults to `"viewer"`, and an
unrecognized role resolves to `"viewer"`. -/
theorem get_role_token_gating (adminToken : String) (x_role x_admin_token : Option String) :
    ((pyStrip (pyLower (pyOr x_role "viewer")) = "moderator"
       ∨ pyStrip (pyLower (pyOr x_role "viewer")) = "admin") →
       ((get_role adminToken x_role x_admin_token = pyStrip (pyLower (pyOr x_role "viewer"))
          ↔ (adminToken ≠ "" ∧ x_admin_token = some adminToken))
        ∧ ((adminToken = "" ∨ x_admin_token ≠ some adminToken) →
           get_role adminToken x_role x_admin_token = "viewer")))
    ∧ ((pyStrip (pyLower (pyOr x_role "viewer")) = "viewer"
        ∨ pyStrip (pyLower (pyOr x_role "viewer")) = "member") →
       get_role adminToken x_role x_admin_token = pyStrip (pyLower (pyOr x_role "viewer")))
    ∧ (pyStrip (pyLower (pyOr x_role "viewer")) ≠ "moderator" →
       pyStrip (pyLower (pyOr x_role "viewer")) ≠ "admin" →
       pyStrip (pyLower (pyOr x_role "viewer")) ≠ "viewer" →
       pyStrip (pyLower (pyOr x_role "viewer")) ≠ "member" →
       get_role adminToken x_role x_admin_token = "viewer")
    ∧ get_role adminToken none x_admin_token = "viewer" := by
  refine ⟨?_, ?_, ?_, ?_⟩
  · intro hrol
    constructor
    · constructor
      · intro heq
        by_cases htok : adminToken = "" ∨ x_admin_token ≠ some adminToken
        · exfalso
          have hv := get_role_elevated_bad_token adminToken x_role x_admin_token hrol htok
          rw [hv] at heq
          rcases hrol with h | h <;> rw [← heq] at h <;> exact absurd h (by decide)
        · push_neg at htok
          exact ⟨htok.1, htok.2⟩
      · intro ⟨h1, h2⟩
        exact get_role_elevated_good_token adminToken x_role x_admin_token hrol h1 h2
    · exact get_role_elevated_bad_token adminToken x_role x_admin_token hrol
  · exact get_role_low adminToken x_role x_admin_token
  · exact get_role_unrecognized adminToken x_role x_admin_token
  · exact get_role_low adminToken none x_admin_token (Or.inl (by decide))

/-- Witness for C4: a claimed `" Admin "` header with the right token resolves
to `admin`; a wrong or unconfigured token silently downgrades to `viewer`;
`member` needs no token. -/
theorem get_role_token_gating_witness :
    get_role "sek" (some " Admin ") (some "sek") = "admin"
    ∧ get_role "sek" (some "moderator") (some "bad") = "viewer"
    ∧ get_role "" (some "admin") (some "") = "viewer"
    ∧ get_role "sek" (some "member") none = "member" := by
  refine ⟨?_, ?_, ?_, ?_⟩
  · have hro : pyStrip (pyLower (pyOr (some " Admin ") "viewer")) = "admin" := by decide
    have h1 := ((get_role_token_gating "sek" (some " Admin ") (some "sek")).1
      (Or.inr hro)).1.mpr ⟨by decide, rfl⟩
    exact h1.trans hro
  · exact ((get_role_token_gating "sek" (some "moderator") (some "bad")).1
      (Or.inl (by decide))).2 (Or.inr (by decide))
  · exact ((get_role_token_gating "" (some "admin") (some "")).1
      (Or.inr (by decide))).2 (Or.inl rfl)
  · have hro : pyStrip (pyLower (pyOr (some "member") "viewer")) = "member" := by decide
    exact ((get_role_token_gating "sek" (some "member") none).2.1
      (Or.inr hro)).trans hro

/-- C5: a flag or delete request against a chat or room message by a caller
whose resolved role is neither `moderator` nor `admin` is rejected by the
`require_moderator` dependency with the 403 insufficient-privilege error —
which differs from the 404 not-found error — and the message store is returned
unchanged: nothing is flagged and nothing is deleted. -/
theorem moderation_requires_elevated_role
    (role : String) (store : MsgStore) (room_id message_id : String)
    (h1 : role ≠ "moderator") (h2 : role ≠ "admin") :
    flag_chat_message role store message_id
        = (store, Resp.err 403 "Moderator role required")
    ∧ delete_chat_message role store message_id
        = (store, Resp.err 403 "Moderator role required")
    ∧ flag_room_message role store room_id message_id
        = (store, Resp.err 403 "Moderator role required")
    ∧ delete_room_message role store room_id message_id
        = (store, Resp.err 403 "Moderator role required")
    ∧ Resp.err 403 "Moderator role required" ≠ Resp.err 404 "Message not found" := by
  have hreq : require_moderator role = some (.err 403 "Moderator role required") := by
    simp only [require_moderator]
    rw [beq_eq_false_iff_ne.mpr h1, beq_eq_false_iff_ne.mpr h2]
    rfl
  refine ⟨?_, ?_, ?_, ?_, by decide⟩ <;>
    simp only [flag_chat_message, delete_chat_message, flag_room_message,
      delete_room_message, hreq]

/-- Witness for C5: a viewer hitting all four moderation endpoints against an
existing message gets the 403 and the store is untouched. -/
theorem moderation_requires_elevated_role_witness :
    flag_chat_message "viewer" [("aaaaaaaaaaaaaaaaaaaaaaaa", ⟨false⟩)]
        "aaaaaaaaaaaaaaaaaaaaaaaa"
      = ([("aaaaaaaaaaaaaaaaaaaaaaaa", ⟨false⟩)],
         Resp.err 403 "Moderator role required")
    ∧ delete_room_message "viewer" [("aaaaaaaaaaaaaaaaaaaaaaaa", ⟨false⟩)]
        "bbbbbbbbbbbbbbbbbbbbbbbb" "aaaaaaaaaaaaaaaaaaaaaaaa"
      = ([("aaaaaaaaaaaaaaaaaaaaaaaa", ⟨false⟩)],
         Resp.err 403 "Moderator role required") :=
  ⟨(moderation_requires_elevated_role "viewer" [("aaaaaaaaaaaaaaaaaaaaaaaa", ⟨false⟩)]
      "bbbbbbbbbbbbbbbbbbbbbbbb" "aaaaaaaaaaaaaaaaaaaaaaaa"
      (by decide) (by decide)).1,
   (moderation_requires_elevated_role "viewer" [("aaaaaaaaaaaaaaaaaaaaaaaa", ⟨false⟩)]
      "bbbbbbbbbbbbbbbbbbbbbbbb" "aaaaaaaaaaaaaaaaaaaaaaaa"
      (by decide) (by decide)).2.2.2.1⟩

/-- C6 counterexample: the room id `"x"` has no room document (the store is
empty), yet posting a message to it returns the 500 "Invalid document id"
error — `_to_object_id` raises `ValueError` for the malformed id and the
endpoint's generic `except Exception` maps it to 500 — not the claimed
"not found" error. (No broadcast is performed, as the empty second component
shows.) -/
theorem post_nonexistent_room_malformed_id_is_500 :
    post_room_message [] "x" [] "cccccccccccccccccccccccc"
      = (Resp.err 500 "Invalid document id", [])
    ∧ (post_room_message [] "x" [] "cccccccccccccccccccccccc").1
      ≠ Resp.err 404 "Room not found" := by
  constructor
  · rfl
  · intro hne
    have : Resp.err 500 "Invalid document id" = Resp.err 404 "Room not found" := hne
    exact absurd this (by decide)

/-- C6 amended: posting a message or pinning media to a room id for which no
room document exists performs zero broadcasts on that room's channel, and
returns "not found" (404) when the id is a well-formed ObjectId string; a
malformed room id instead surfaces as a 500 "Invalid document id" error
(`_to_object_id`'s `ValueError` through the endpoint's generic handler), still
with zero broadcasts. -/
theorem nonexistent_room_post_pin_semantics
    (rooms : RoomStore) (room_id : String) (payload : List (String × Json))
    (newId url : String) (habsent : rooms.contains room_id = false) :
    (objectIdValid room_id = true →
       post_room_message rooms room_id payload newId = (.err 404 "Room not found", [])
       ∧ pin_media rooms room_id url = (.err 404 "Room not found or not updated", []))
    ∧ (objectIdValid room_id = false →
       post_room_message rooms room_id payload newId = (.err 500 "Invalid document id", [])
       ∧ pin_media rooms room_id url = (.err 500 "Invalid document id", [])) := by
  constructor
  · intro hvalid
    have hto : to_object_id room_id = .ok room_id := by
      simp only [to_object_id]
      rw [hvalid, if_pos rfl]
    constructor
    · simp only [post_room_message, hto, habsent]
      rfl
    · simp only [pin_media, hto, habsent]
      rfl
  · intro hinvalid
    have hto : to_object_id room_id = .error "Invalid document id" := by
      simp only [to_object_id]
      rw [hinvalid]
      rfl
    constructor
    · simp only [post_room_message, hto]
    · simp only [pin_media, hto]

/-- Witness for the amended C6: a well-formed ObjectId with no room document
gets the 404 with no broadcast; the malformed id `"x"` gets the 500 with no
broadcast. -/
theorem nonexistent_room_post_pin_semantics_witness :
    post_room_message [] "aaaaaaaaaaaaaaaaaaaaaaaa" [] "cccccccccccccccccccccccc"
      = (Resp.err 404 "Room not found", [])
    ∧ pin_media [] "x" "u" = (Resp.err 500 "Invalid document id", []) :=
  ⟨((nonexistent_room_post_pin_semantics [] "aaaaaaaaaaaaaaaaaaaaaaaa" []
      "cccccccccccccccccccccccc" "u" (by decide)).1 (by decide)).1,
   ((nonexistent_room_post_pin_semantics [] "x" [] "cccccccccccccccccccccccc" "u"
      (by decide)).2 (by decide)).2⟩

/-- C7: an inbound `{"type":"ping"}` frame on a chat or room connection gets
exactly one `{"type":"pong"}` reply sent to the sending connection and nothing
else — no broadcast is performed and the hub state is untouched — regardless
of the channel's subscriber population. -/
theorem ping_frame_unicast_pong
    (h : Hub) (cat room : String) (sender : ConnId) (fails : ConnId → Bool)
    (fields : List (String × Json))
    (ht : jsonGet fields "type" = some (Json.jstr "ping")) :
    handleChatFrame h cat sender (Json.jobj fields) fails = (h, [(sender, pongMsg)])
    ∧ handleRoomFrame h room sender (Json.jobj fields) fails = (h, [(sender, pongMsg)]) := by
  constructor <;>
  · simp only [handleChatFrame, handleRoomFrame, ht]
    rfl

/-- Witness for C7: a ping on a populated channel produces the single pong to
the sender, whatever the subscriber count. -/
theorem ping_frame_unicast_pong_witness :
    handleChatFrame hubW "c" 5 (Json.jobj [("type", Json.jstr "ping")]) (fun _ => false)
      = (hubW, [(5, pongMsg)])
    ∧ handleRoomFrame hubW "r" 1 (Json.jobj [("type", Json.jstr "ping")]) (fun _ => false)
      = (hubW, [(1, pongMsg)]) :=
  ⟨(ping_frame_unicast_pong hubW "c" "r" 5 (fun _ => false)
      [("type", Json.jstr "ping")] rfl).1,
   (ping_frame_unicast_pong hubW "c" "r" 1 (fun _ => false)
      [("type", Json.jstr "ping")] rfl).2⟩

/-- C9: a `{"type":"typing"}` frame whose `author` field is absent, JSON null,
or the empty string is rebroadcast with author `"Anon"` (Python
`data.get("author") or "Anon"`); a frame whose author is a non-empty string is
rebroadcast with exactly that string. -/
theorem typing_frame_author_defaulting
    (h : Hub) (cat room : String) (sender : ConnId) (fails : ConnId → Bool)
    (fields : List (String × Json))
    (ht : jsonGet fields "type" = some (Json.jstr "typing")) :
    ((jsonGet fields "author" = none ∨ jsonGet fields "author" = some Json.null
        ∨ jsonGet fields "author" = some (Json.jstr "")) →
       handleChatFrame h cat sender (Json.jobj fields) fails
           = broadcast_chat h cat (typingMsg (Json.jstr "Anon")) fails
       ∧ handleRoomFrame h room sender (Json.jobj fields) fails
           = broadcast_room h room (typingMsg (Json.jstr "Anon")) fails)
    ∧ (∀ s : String, s ≠ "" → jsonGet fields "author" = some (Json.jstr s) →
       handleChatFrame h cat sender (Json.jobj fields) fails
           = broadcast_chat h cat (typingMsg (Json.jstr s)) fails
       ∧ handleRoomFrame h room sender (Json.jobj fields) fails
           = broadcast_room h room (typingMsg (Json.jstr s)) fails) := by
  constructor
  · intro ha
    have htr : jsonTruthy ((jsonGet fields "author").getD Json.null) = false := by
      rcases ha with h1 | h1 | h1 <;> rw [h1] <;> rfl
    constructor <;>
    · simp only [handleChatFrame, handleRoomFrame, ht]
      rw [if_pos (show optJsonIsStr (some (Json.jstr "typing")) "typing" = true from rfl),
        if_neg (show ¬ jsonTruthy ((jsonGet fields "author").getD Json.null) = true from by
          rw [htr]; exact Bool.false_ne_true)]
  · intro s hs hsa
    constructor <;>
    · simp only [handleChatFrame, handleRoomFrame, ht, hsa, Option.getD_some]
      rw [if_pos (show optJsonIsStr (some (Json.jstr "typing")) "typing" = true from rfl),
        if_pos (show jsonTruthy (Json.jstr s) = true from bne_iff_ne.mpr hs)]

/-- Witness for C9: a typing frame with no author broadcasts author `"Anon"`;
one with author `"Ann"` broadcasts `"Ann"`. -/
theorem typing_frame_author_defaulting_witness :
    handleChatFrame hubW "c" 1 (Json.jobj [("type", Json.jstr "typing")]) (fun _ => false)
      = broadcast_chat hubW "c" (typingMsg (Json.jstr "Anon")) (fun _ => false)
    ∧ handleRoomFrame hubW "r" 1
        (Json.jobj [("type", Json.jstr "typing"), ("author", Json.jstr "Ann")])
        (fun _ => false)
      = broadcast_room hubW "r" (typingMsg (Json.jstr "Ann")) (fun _ => false) :=
  ⟨((typing_frame_author_defaulting hubW "c" "r" 1 (fun _ => false)
      [("type", Json.jstr "typing")] rfl).1 (Or.inl rfl)).1,
   ((typing_frame_author_defaulting hubW "c" "r" 1 (fun _ => false)
      [("type", Json.jstr "typing"), ("author", Json.jstr "Ann")] rfl).2
      "Ann" (by decide) rfl).2⟩

theorem broadcast_chat_noFail (h : Hub) (cat : String) (msg : Json) :
    broadcast_chat h cat msg (fun _ => false)
      = (h, (regGet h.chat_channels cat).map (fun c => (c, msg))) := by
  show ({h with chat_channels := (regBroadcast h.chat_channels cat msg (fun _ => false)).1},
        (regBroadcast h.chat_channels cat msg (fun _ => false)).2) = _
  rw [regBroadcast_noFail_fst, regBroadcast_noFail_snd]

theorem broadcast_room_noFail (h : Hub) (room : String) (msg : Json) :
    broadcast_room h room msg (fun _ => false)
      = (h, (regGet h.room_channels room).map (fun c => (c, msg))) := by
  show ({h with room_channels := (regBroadcast h.room_channels room msg (fun _ => false)).1},
        (regBroadcast h.room_channels room msg (fun _ => false)).2) = _
  rw [regBroadcast_noFail_fst, regBroadcast_noFail_snd]

theorem disconnect_chat_nonmember (h : Hub) (cat : String) (ws : ConnId)
    (hmem : ws ∉ regGet h.chat_channels cat) :
    disconnect_chat h cat ws (fun _ => false)
      = (h, (regGet h.chat_channels cat).map
          (fun c => (c, presenceMsg "leave" (count_chat h cat)))) := by
  have hu := regUnsub_nonmember h.chat_channels cat ws hmem
  have hstep : disconnect_chat h cat ws (fun _ => false)
      = broadcast_chat h cat (presenceMsg "leave" (count_chat h cat)) (fun _ => false) := by
    unfold disconnect_chat
    rw [hu]
  rw [hstep, broadcast_chat_noFail]

theorem disconnect_room_nonmember (h : Hub) (room : String) (ws : ConnId)
    (hmem : ws ∉ regGet h.room_channels room) :
    disconnect_room h room ws (fun _ => false)
      = (h, (regGet h.room_channels room).map
          (fun c => (c, presenceMsg "leave" (count_room h room)))) := by
  have hu := regUnsub_nonmember h.room_channels room ws hmem
  have hstep : disconnect_room h room ws (fun _ => false)
      = broadcast_room h room (presenceMsg "leave" (count_room h room)) (fun _ => false) := by
    unfold disconnect_room
    rw [hu]
  rw [hstep, broadcast_room_noFail]

/-- C10: `disconnect_chat` / `disconnect_room` broadcast the leave presence
frame unconditionally — when the disconnecting connection is not a member the
registry is left unchanged and the current members still receive
`presence{event:"leave"}` with the unchanged count — so disconnecting the same
connection twice reproduces the first disconnect exactly: same resulting hub
and a duplicate leave event with the same count. -/
theorem disconnect_nonmember_still_emits_leave (h : Hub) (cat room : String) (ws : ConnId) :
    (ws ∉ regGet h.chat_channels cat →
       disconnect_chat h cat ws (fun _ => false)
         = (h, (regGet h.chat_channels cat).map
             (fun c => (c, presenceMsg "leave" (count_chat h cat)))))
    ∧ (ws ∉ regGet h.room_channels room →
       disconnect_room h room ws (fun _ => false)
         = (h, (regGet h.room_channels room).map
             (fun c => (c, presenceMsg "leave" (count_room h room)))))
    ∧ disconnect_chat (disconnect_chat h cat ws (fun _ => false)).1 cat ws (fun _ => false)
        = disconnect_chat h cat ws (fun _ => false)
    ∧ disconnect_room (disconnect_room h room ws (fun _ => false)).1 room ws (fun _ => false)
        = disconnect_room h room ws (fun _ => false) := by
  refine ⟨disconnect_chat_nonmember h cat ws, disconnect_room_nonmember h room ws, ?_, ?_⟩
  · have hchat1 : (disconnect_chat h cat ws (fun _ => false)).1.chat_channels
        = regUnsub h.chat_channels cat ws := regBroadcast_noFail_fst _ _ _
    have hmem1 : ws ∉ regGet (disconnect_chat h cat ws (fun _ => false)).1.chat_channels cat := by
      rw [hchat1]
      exact regUnsub_not_mem _ _ _
    have h12 : (disconnect_chat h cat ws (fun _ => false)).2
        = (regGet (disconnect_chat h cat ws (fun _ => false)).1.chat_channels cat).map
            (fun c => (c, presenceMsg "leave"
              (count_chat (disconnect_chat h cat ws (fun _ => false)).1 cat))) := by
      have hcnt : count_chat (disconnect_chat h cat ws (fun _ => false)).1 cat
          = (regGet (regUnsub h.chat_channels cat ws) cat).length := by
        show (regGet (disconnect_chat h cat ws (fun _ => false)).1.chat_channels cat).length = _
        rw [hchat1]
      rw [hcnt, hchat1]
      exact regBroadcast_noFail_snd _ _ _
    rw [disconnect_chat_nonmember _ cat ws hmem1]
    exact Prod.ext_iff.mpr ⟨rfl, h12.symm⟩
  · have hroom1 : (disconnect_room h room ws (fun _ => false)).1.room_channels
        = regUnsub h.room_channels room ws := regBroadcast_noFail_fst _ _ _
    have hmem1 : ws ∉ regGet (disconnect_room h room ws (fun _ => false)).1.room_channels room := by
      rw [hroom1]
      exact regUnsub_not_mem _ _ _
    have h12 : (disconnect_room h room ws (fun _ => false)).2
        = (regGet (disconnect_room h room ws (fun _ => false)).1.room_channels room).map
            (fun c => (c, presenceMsg "leave"
              (count_room (disconnect_room h room ws (fun _ => false)).1 room))) := by
      have hcnt : count_room (disconnect_room h room ws (fun _ => false)).1 room
          = (regGet (regUnsub h.room_channels room ws) room).length := by
        show (regGet (disconnect_room h room ws (fun _ => false)).1.room_channels room).length = _
        rw [hroom1]
      rw [hcnt, hroom1]
      exact regBroadcast_noFail_snd _ _ _
    rw [disconnect_room_nonmember _ room ws hmem1]
    exact Prod.ext_iff.mpr ⟨rfl, h12.symm⟩

/-- Witness for C10: disconnecting connection 9 — never a member of channel
`"c"` — leaves the hub unchanged and still delivers the leave presence frame
(count 2) to the two current members. -/
theorem disconnect_nonmember_still_emits_leave_witness :
    disconnect_chat hubW "c" 9 (fun _ => false)
      = (hubW, [(1, presenceMsg "leave" 2), (2, presenceMsg "leave" 2)]) := by
  have h1 := (disconnect_nonmember_still_emits_leave hubW "c" "r" 9).1 (by decide)
  exact h1

theorem twoPhaseRun_sends (l : List ConnId) (rest : List HubStep) :
    twoPhaseRun (l.map HubStep.send ++ rest) 0 = twoPhaseRun rest 0 := by
  induction l with
  | nil => rfl
  | cons a t ih =>
    rw [List.map_cons, List.cons_append]
    show (0 == 0 && twoPhaseRun (t.map HubStep.send ++ rest) 0) = twoPhaseRun rest 0
    rw [ih]
    rfl

theorem twoPhaseRun_discards (k : String) (l : List ConnId) (rest : List HubStep) :
    twoPhaseRun (l.map (fun ws => HubStep.discard k ws) ++ rest) 1
      = twoPhaseRun rest 1 := by
  induction l with
  | nil => rfl
  | cons a t ih =>
    rw [List.map_cons, List.cons_append]
    show (1 != 0 && twoPhaseRun (t.map (fun ws => HubStep.discard k ws) ++ rest) 1)
        = twoPhaseRun rest 1
    rw [ih]
    rfl

theorem twoPhaseRun_broadcastSteps (k : String) (conns dead : List ConnId) :
    twoPhaseRun (broadcastSteps k conns dead) 0 = true := by
  have hform : broadcastSteps k conns dead
      = HubStep.snapshot k :: (conns.map HubStep.send ++
          (if dead.isEmpty then []
           else HubStep.acquire ::
             (dead.map (fun ws => HubStep.discard k ws) ++ [HubStep.release]))) := by
    unfold broadcastSteps
    by_cases hd : dead.isEmpty = true <;> simp [hd]
  rw [hform]
  have h1 : twoPhaseRun (HubStep.snapshot k :: (conns.map HubStep.send ++
        (if dead.isEmpty then []
         else HubStep.acquire ::
           (dead.map (fun ws => HubStep.discard k ws) ++ [HubStep.release])))) 0
      = twoPhaseRun (conns.map HubStep.send ++
          (if dead.isEmpty then []
           else HubStep.acquire ::
             (dead.map (fun ws => HubStep.discard k ws) ++ [HubStep.release]))) 0 := rfl
  rw [h1, twoPhaseRun_sends]
  by_cases hd : dead.isEmpty = true
  · rw [if_pos hd]
    rfl
  · rw [if_neg hd]
    have h2 : twoPhaseRun (HubStep.acquire ::
          (dead.map (fun ws => HubStep.discard k ws) ++ [HubStep.release])) 0
        = twoPhaseRun (dead.map (fun ws => HubStep.discard k ws) ++ [HubStep.release]) 1 := rfl
    rw [h2, twoPhaseRun_discards]
    rfl

/-- C8 counterexample: a broadcast on channel `"c"` whose snapshot holds the
single subscriber 1 and whose send to 1 fails. In the action sequence the code
performs (main.py lines 468-479), the snapshot `conns = list(d.get(k, set()))`
executes before any lock acquisition — only the dead-connection eviction runs
under `self.lock` — so the check "every snapshot executes while the lock is
held" comes out false. -/
theorem broadcast_snapshot_not_under_lock :
    snapshotsUnderLock
      (broadcastSteps "c" (regGet [("c", [1])] "c")
        ((broadcastPass pongMsg (fun _ => true) (regGet [("c", [1])] "c")).2)) 0
      = false := by
  decide

/-- C8 amended: the subscriber snapshot of a broadcast is taken without
holding the registry lock — it is the first action of the broadcast, and as a
single step with no suspension point no subscribe/unsubscribe can interleave
with it under the cooperative scheduler even unlocked — and the run is
two-phase: every awaited network send executes with the lock free and every
dead-connection discard executes with the lock held. Stated for the action
sequence of main.py lines 468-479 / 499-510 instantiated with the snapshot and
dead list an arbitrary broadcast computes. -/
theorem broadcast_two_phase_lock_discipline (r : Registry) (k : String) (msg : Json)
    (fails : ConnId → Bool) :
    twoPhaseRun
      (broadcastSteps k (regGet r k) ((broadcastPass msg fails (regGet r k)).2)) 0 = true
    ∧ (broadcastSteps k (regGet r k)
        ((broadcastPass msg fails (regGet r k)).2)).head? = some (HubStep.snapshot k) := by
  constructor
  · exact twoPhaseRun_broadcastSteps k (regGet r k) ((broadcastPass msg fails (regGet r k)).2)
  · simp [broadcastSteps]
